import Mathlib

/-!
Verification of the serde-evolve version-chain resolver and envelope codec.

The repository is a Rust procedural-macro crate. Its engineering content is a
code generator: given a domain type, an ordered chain of version shape types
V1..Vn and externally supplied migration edges, it emits a tagged-union
representation enum together with conversion code. We embed the generator and
the runtime semantics of the code it emits.

Embedding map (source file to Lean definition):

* `src/versioned-macros/src/emit.rs::build_infallible_chain` and
  `build_fallible_chain` build a nested conversion expression by a loop that
  wraps an accumulator expression once per remaining chain type. We embed the
  emitted expression as the inductive `ChainExpr` and the builders as
  `buildInfallibleChain` / `buildFallibleChain` (a fold over the dropped
  type list, exactly mirroring the `iter().skip(start_idx + 1)` loop).
* The runtime meaning of the emitted expression is `evalInto` (infallible
  mode, each wrapped layer runs one user-supplied `From` conversion keyed by
  its target type) and `evalTryInto` (fallible mode, each layer runs a
  user-supplied `TryFrom` conversion and the question-mark operator
  short-circuits on the first error, modelled by `Except.bind`).
* `emit.rs::generate_rep_enum` emits the representation enum with one variant
  per chain entry, serde renames "1".."n", the `CURRENT` constant, `version`
  and `is_current`. The emitted metadata is embedded generically as the
  envelope model `RepE` with `RepE.version`, `RepE.is_current`, `repCurrent`,
  and syntactically as `RepEnumTokens` produced by `emitGenerateRepEnum`.
* `emit.rs::generate_conversions` dispatches on the active variant and runs
  the chain for its index; embedded as `toDomain` / `tryToDomain`. The
  emitted `From<&Domain>` impl always wraps the projection of the domain
  value into the latest variant; embedded as `fromDomain`.
* `src/versioned-macros/src/validate.rs::validate` and the inline generator
  `src/versioned-macros/src/lib.rs::VersionedReceiver::generate` are embedded
  as `validateInput` / `pipelineGenerate` and `libGenerate` over the same
  configuration record, so the two parallel implementations can be compared.
* The external serialization layer (serde) is out of scope of the repository;
  where a claim depends on its documented contract (internally tagged enum
  dispatch, struct field decoding) the contract is modelled in a definition
  whose doc comment says so.

Values of all version shapes and of the domain type are modelled in a single
carrier type; a conversion keyed by the name of its target type stands for
the user-supplied `From` / `TryFrom` impl that the emitted `.into()` /
`.try_into()` call resolves to.
-/

/-- Decidable equality for `Except`, used to evaluate concrete fallible runs
in witnesses and counterexamples. -/
instance exceptDecidableEq {ε α : Type} [DecidableEq ε] [DecidableEq α] :
    DecidableEq (Except ε α) := fun x y =>
  match x, y with
  | Except.ok a, Except.ok b =>
      if h : a = b then Decidable.isTrue (by rw [h])
      else Decidable.isFalse (fun hc => h (Except.ok.inj hc))
  | Except.ok _, Except.error _ =>
      Decidable.isFalse (fun hc => Except.noConfusion hc)
  | Except.error _, Except.ok _ =>
      Decidable.isFalse (fun hc => Except.noConfusion hc)
  | Except.error d, Except.error e =>
      if h : d = e then Decidable.isTrue (by rw [h])
      else Decidable.isFalse (fun hc => h (Except.error.inj hc))

/-- Emitted conversion expression. `vExpr` is the bound payload variable `v`
of the match arm; `intoStep ty inner` is the emitted block
`{ let next: ty = inner.into(); next }` (or `.try_into()?` in fallible mode,
where the enclosing impl determines which operator is meant). -/
inductive ChainExpr where
  | vExpr : ChainExpr
  | intoStep (ty : String) (inner : ChainExpr) : ChainExpr
deriving DecidableEq, Repr

/-- Embedding of `emit.rs::build_infallible_chain`: starting from the payload
variable, wrap one conversion layer per chain type after `startIdx`
(the `iter().skip(start_idx + 1)` loop), then a final layer into the domain
type. -/
def buildInfallibleChain (domainType : String) (versionTypes : List String)
    (startIdx : Nat) : ChainExpr :=
  let expr := (versionTypes.drop (startIdx + 1)).foldl
    (fun e ty => ChainExpr.intoStep ty e) ChainExpr.vExpr
  ChainExpr.intoStep domainType expr

/-- Embedding of `emit.rs::build_fallible_chain`: identical expression shape,
each layer standing for `{ let next: ty = inner.try_into()?; next }` and the
outermost layer for `{ let next: Domain = inner.try_into()?; Ok(next) }`. -/
def buildFallibleChain (domainType : String) (versionTypes : List String)
    (startIdx : Nat) : ChainExpr :=
  let expr := (versionTypes.drop (startIdx + 1)).foldl
    (fun e ty => ChainExpr.intoStep ty e) ChainExpr.vExpr
  ChainExpr.intoStep domainType expr

/-- The target types of the conversion layers of an emitted chain expression,
in runtime application order (innermost first). -/
def chainTargets : ChainExpr → List String
  | ChainExpr.vExpr => []
  | ChainExpr.intoStep ty inner => chainTargets inner ++ [ty]

/-- Runtime semantics of an emitted infallible chain: each layer runs the
user-supplied `From` conversion into its target type. -/
def evalInto {α : Type} (into : String → α → α) : ChainExpr → α → α
  | ChainExpr.vExpr, v => v
  | ChainExpr.intoStep ty inner, v => into ty (evalInto into inner v)

/-- Runtime semantics of an emitted fallible chain: each layer runs the
user-supplied `TryFrom` conversion; the question-mark operator on every layer
is `Except.bind`, so the first error short-circuits all remaining layers. -/
def evalTryInto {α ε : Type} (tryInto : String → α → Except ε α) :
    ChainExpr → α → Except ε α
  | ChainExpr.vExpr, v => Except.ok v
  | ChainExpr.intoStep ty inner, v =>
      (evalTryInto tryInto inner v).bind (tryInto ty)

/-- Sequential fail-fast application of the conversions named by `ts`, in
list order, to `v`. This is the specification-side reading of the fallible
composition: the steps run strictly in order and the first error stops the
run. -/
def runSteps {α ε : Type} (tryInto : String → α → Except ε α)
    (ts : List String) (v : α) : Except ε α :=
  ts.foldl (fun acc ty => acc.bind (tryInto ty)) (Except.ok v)

/-- Sequential application of total conversions named by `ts`, in list
order. Specification-side reading of the infallible composition. -/
def applySteps {α : Type} (into : String → α → α) (ts : List String)
    (v : α) : α :=
  ts.foldl (fun acc ty => into ty acc) v

/-! ## Generic envelope model

`RepE n α` models a value of the emitted representation enum for a chain of
`n` versions: the active variant index (0-based, variant `V(idx+1)`) and its
payload in the common carrier. -/

/-- A value of the emitted representation enum: active variant plus payload.
The emitted enum has exactly one variant per chain entry, hence `Fin n`. -/
structure RepE (n : Nat) (α : Type) where
  idx : Fin n
  payload : α
deriving DecidableEq

/-- Embedding of the emitted `version` method: the match arm for variant
`V(idx+1)` returns the literal `idx + 1`. Pure and total by construction. -/
def RepE.version {n : Nat} {α : Type} (e : RepE n α) : Nat :=
  e.idx.val + 1

/-- Embedding of the emitted `CURRENT` constant: the number of versions in
the chain. -/
def repCurrent (n : Nat) : Nat := n

/-- Embedding of the emitted `is_current` method:
`matches!(self, Self::V{n}(_))`, i.e. the active variant is the latest one. -/
def RepE.is_current {n : Nat} {α : Type} (e : RepE n α) : Bool :=
  e.idx.val == n - 1

/-- Embedding of the emitted `From<Rep> for Domain` impl (infallible mode):
dispatch on the active variant and run the chain for its index. For variant
index `i` (0-based) the emitted chain applies the adjacent edges
`i, i+1, ..., n-2` in ascending order, then the domain edge. `edge j` is the
user-supplied conversion from shape `j+1` to shape `j+2` (1-based naming). -/
def toDomain {α δ : Type} (edge : Nat → α → α) (domEdge : α → δ)
    (n : Nat) (e : RepE n α) : δ :=
  domEdge ((List.range' e.idx.val (n - 1 - e.idx.val)).foldl
    (fun acc j => edge j acc) e.payload)

/-- Embedding of the emitted `TryFrom<Rep> for Domain` impl (fallible mode):
same dispatch, each edge fallible, question-mark short-circuiting. -/
def tryToDomain {α δ ε : Type} (tryEdge : Nat → α → Except ε α)
    (tryDomEdge : α → Except ε δ) (n : Nat) (e : RepE n α) : Except ε δ :=
  ((List.range' e.idx.val (n - 1 - e.idx.val)).foldl
    (fun acc j => acc.bind (tryEdge j)) (Except.ok e.payload)).bind tryDomEdge

/-- Embedding of the emitted `From<&Domain> for Rep` impl: project the domain
value to the latest shape and wrap it in the latest variant `V{n}`. -/
def fromDomain {α δ : Type} (proj : δ → α) (n : Nat) (hn : 0 < n)
    (d : δ) : RepE n α :=
  { idx := ⟨n - 1, by omega⟩, payload := proj d }

/-! ## Concrete instance: the infallible `User` example

Embedding of `src/examples/infallible.rs`: shapes `V1 { name }`,
`V2 { full_name, email }`, domain `User { full_name, email }`, user-supplied
edges `From<V1> for V2`, `From<V2> for User`, `From<&User> for V2`, and the
code the macro emits for `chain(V1, V2)` in infallible mode. -/

/-- Shape `V1` of the infallible example. -/
structure ExV1 where
  name : String
deriving DecidableEq

/-- Shape `V2` of the infallible example. -/
structure ExV2 where
  full_name : String
  email : Option String
deriving DecidableEq

/-- Domain type `User` of the infallible example. -/
structure ExUser where
  full_name : String
  email : Option String
deriving DecidableEq

/-- User-supplied edge `From<V1> for V2`: rename `name` to `full_name`, set
`email` to `None`. -/
def exV1ToV2 (v1 : ExV1) : ExV2 :=
  { full_name := v1.name, email := none }

/-- User-supplied edge `From<V2> for User`. -/
def exV2ToUser (v2 : ExV2) : ExUser :=
  { full_name := v2.full_name, email := v2.email }

/-- User-supplied projection `From<&User> for V2`. -/
def exUserToV2 (u : ExUser) : ExV2 :=
  { full_name := u.full_name, email := u.email }

/-- The representation enum `UserVersions` the macro emits for
`chain(V1, V2)`. -/
inductive ExUserVersions where
  | V1 (v : ExV1) : ExUserVersions
  | V2 (v : ExV2) : ExUserVersions
deriving DecidableEq

/-- Emitted `From<UserVersions> for User`: the `V1` arm runs the chain
`V1 -> V2 -> User`, the `V2` arm runs the single edge `V2 -> User`. -/
def ExUserVersions.toUser : ExUserVersions → ExUser
  | ExUserVersions.V1 v => exV2ToUser (exV1ToV2 v)
  | ExUserVersions.V2 v => exV2ToUser v

/-- Emitted `From<&User> for UserVersions`: project to `V2` and wrap in the
latest variant. -/
def ExUser.toRep (u : ExUser) : ExUserVersions :=
  ExUserVersions.V2 (exUserToV2 u)

/-! ## Wire model for the concrete scenario

A minimal structured value and the decoders that the external serialization
layer derives for the example shapes. The envelope is a flat object whose
distinguished `_version` field carries the 1-based position as a string; the
remaining fields sit at the same level. -/

/-- A structured wire value: string, null, or flat object. -/
inductive Json where
  | str (s : String) : Json
  | null : Json
  | obj (fields : List (String × Json)) : Json

/-- Field lookup in a wire object. -/
def Json.getField : Json → String → Option Json
  | Json.obj fields, key => fields.lookup key
  | _, _ => none

/-- Decode a wire value as a string. -/
def Json.asString : Json → Option String
  | Json.str s => some s
  | _ => none

/-- Modelled from the external serialization contract: the derived decoder of
shape `V1 { name: String }` reads the required `name` field. -/
def decodeExV1 (j : Json) : Option ExV1 :=
  ((j.getField "name").bind Json.asString).map (fun s => { name := s })

/-- Modelled from the external serialization contract: the derived decoder of
shape `V2 { full_name: String, email: Option<String> }`; a missing or null
optional field decodes to `none`. -/
def decodeExV2 (j : Json) : Option ExV2 :=
  match (j.getField "full_name").bind Json.asString with
  | none => none
  | some fn =>
    match j.getField "email" with
    | none => some { full_name := fn, email := none }
    | some Json.null => some { full_name := fn, email := none }
    | some (Json.str s) => some { full_name := fn, email := some s }
    | some (Json.obj _) => none

/-- Modelled from the external serialization contract for the emitted
internally tagged enum (`#[serde(tag = "_version")]` with variant renames
"1" and "2"): read the tag field, dispatch to the matching variant decoder,
and fail on any other tag with no fallback variant. -/
def decodeExUserVersions (j : Json) : Option ExUserVersions :=
  match (j.getField "_version").bind Json.asString with
  | some "1" => (decodeExV1 j).map ExUserVersions.V1
  | some "2" => (decodeExV2 j).map ExUserVersions.V2
  | _ => none

/-- Wire decode followed by conversion to the domain type: the read path of
the scenario. -/
def decodeExUser (j : Json) : Option ExUser :=
  (decodeExUserVersions j).map ExUserVersions.toUser

/-! ## The two generator implementations

The repository holds two parallel implementations of the macro: the inline
generator `lib.rs::VersionedReceiver::generate` and the
`parse.rs` / `validate.rs` / `emit.rs` pipeline. Both are embedded over the
same configuration record; the emitted token streams are embedded as
structured data. -/

/-- Emitted representation enum, as structured tokens: name, variants as
(serde rename, variant ident, payload type), the `CURRENT` constant, the
`version` match arms, the variant named in `is_current`, and the list of
`From<shape> for Rep` impls. -/
structure RepEnumTokens where
  repName : String
  variants : List (String × String × String)
  current : Nat
  versionArms : List (String × Nat)
  latestVariant : String
  fromImpls : List (String × String)
deriving DecidableEq

/-- Emitted envelope-to-domain conversion impl: `From` in infallible mode,
`TryFrom` with the supplied error type in fallible mode; one match arm per
variant carrying its chain expression. -/
inductive ConvImpl where
  | fromImpl (repName domainType : String) (arms : List (String × ChainExpr))
  | tryFromImpl (repName domainType errorType : String)
      (arms : List (String × ChainExpr))
deriving DecidableEq

/-- Emitted `From<&Domain> for Rep` impl: the latest shape type converted
from the domain value and wrapped in the latest variant. -/
structure DomainToRepTokens where
  latestType : String
  latestVariant : String
deriving DecidableEq

/-- Emitted transparent serde impls: absent when the toggle is off; the
deserialize impl differs between the modes. -/
inductive TranspTokens where
  | nothing : TranspTokens
  | infallibleImpls (domainType repName : String) : TranspTokens
  | fallibleImpls (domainType repName : String) : TranspTokens
deriving DecidableEq

/-- The full emitted token stream of one macro expansion. -/
structure GenOutput where
  repEnum : RepEnumTokens
  conv : ConvImpl
  domainToRep : DomainToRepTokens
  transp : TranspTokens
deriving DecidableEq

/-- Mode as in `validate.rs`: the fallible constructor carries the supplied
error type. -/
inductive VMode where
  | infallible : VMode
  | fallible (errorType : String) : VMode
deriving DecidableEq

/-- Mode as in `lib.rs` (no payload; the error type is read separately from
the receiver). -/
inductive LMode where
  | infallible : LMode
  | fallible : LMode
deriving DecidableEq

/-- The darling-parsed receiver fields shared by both implementations:
domain ident, optional rep name, optional mode string, optional error type,
optional transparent toggle, and the version chain. -/
structure ReceiverInput where
  ident : String
  rep : Option String
  mode : Option String
  error : Option String
  transparent : Option Bool
  chain : List String
deriving DecidableEq

/-- `parse.rs::ParsedInput`. -/
structure ParsedInput where
  ident : String
  representation : Option String
  mode : Option String
  error : Option String
  transparent : Bool
  versions : List String
deriving DecidableEq

/-- `validate.rs::ValidatedInput`. -/
structure ValidatedInput where
  domainIdent : String
  repIdent : String
  mode : VMode
  transparent : Bool
  versions : List String
deriving DecidableEq

/-- Embedding of `parse.rs::parse_input`: field renaming plus defaulting of
the transparent toggle. -/
def parseInput (r : ReceiverInput) : ParsedInput :=
  { ident := r.ident
    representation := r.rep
    mode := r.mode
    error := r.error
    transparent := r.transparent.getD false
    versions := r.chain }

/-- Embedding of `validate.rs::validate`: reject an empty chain, default the
rep ident, then check the mode keyword (default "fallible") and, in fallible
mode, the presence of the error attribute. -/
def validateInput (p : ParsedInput) : Except String ValidatedInput :=
  if p.versions = [] then
    Except.error "chain must contain at least one version type"
  else
    let repIdent := p.representation.getD (p.ident ++ "Versions")
    let m := p.mode.getD "fallible"
    if m = "infallible" then
      Except.ok
        { domainIdent := p.ident
          repIdent := repIdent
          mode := VMode.infallible
          transparent := p.transparent
          versions := p.versions }
    else if m = "fallible" then
      match p.error with
      | some err =>
          Except.ok
            { domainIdent := p.ident
              repIdent := repIdent
              mode := VMode.fallible err
              transparent := p.transparent
              versions := p.versions }
      | none => Except.error "fallible mode requires \x27error\x27 attribute"
    else
      Except.error
        ("invalid mode \x27" ++ m ++
          "\x27, expected \x27infallible\x27 or \x27fallible\x27")

/-- Embedding of `emit.rs::generate_rep_enum`: one variant per chain entry
with serde rename `(idx+1).to_string()`, the `CURRENT` constant equal to the
chain length, `version` arms returning `idx + 1`, `is_current` naming the
latest variant, and one `From<shape> for Rep` impl per entry. -/
def emitGenerateRepEnum (repName : String) (versionTypes : List String) :
    RepEnumTokens :=
  let numVersions := versionTypes.length
  { repName := repName
    variants := versionTypes.enum.map
      (fun p => (toString (p.1 + 1), "V" ++ toString (p.1 + 1), p.2))
    current := numVersions
    versionArms := (List.range numVersions).map
      (fun idx => ("V" ++ toString (idx + 1), idx + 1))
    latestVariant := "V" ++ toString numVersions
    fromImpls := versionTypes.enum.map
      (fun p => (p.2, "V" ++ toString (p.1 + 1))) }

/-- Embedding of `emit.rs::generate_conversions`: per-variant chain arms in
the mode-appropriate impl, plus the `From<&Domain>` impl that names the last
chain type and the latest variant. -/
def emitGenerateConversions (mode : VMode) (domainType repName : String)
    (versionTypes : List String) : ConvImpl × DomainToRepTokens :=
  let numVersions := versionTypes.length
  let repToDomain :=
    match mode with
    | VMode.infallible =>
        ConvImpl.fromImpl repName domainType
          ((List.range numVersions).map
            (fun idx => ("V" ++ toString (idx + 1),
              buildInfallibleChain domainType versionTypes idx)))
    | VMode.fallible errorType =>
        ConvImpl.tryFromImpl repName domainType errorType
          ((List.range numVersions).map
            (fun idx => ("V" ++ toString (idx + 1),
              buildFallibleChain domainType versionTypes idx)))
  (repToDomain,
    { latestType := versionTypes.getD (numVersions - 1) ""
      latestVariant := "V" ++ toString numVersions })

/-- Embedding of `emit.rs::generate_transparent_serde`. -/
def emitGenerateTransparentSerde (mode : VMode)
    (domainType repName : String) : TranspTokens :=
  match mode with
  | VMode.infallible => TranspTokens.infallibleImpls domainType repName
  | VMode.fallible _ => TranspTokens.fallibleImpls domainType repName

/-- Embedding of `emit.rs::generate`: rep enum, conversions, and transparent
impls when the toggle is set. -/
def emitGenerate (input : ValidatedInput) : GenOutput :=
  let repEnum := emitGenerateRepEnum input.repIdent input.versions
  let convPair := emitGenerateConversions input.mode input.domainIdent
    input.repIdent input.versions
  let transparentSerde :=
    if input.transparent then
      emitGenerateTransparentSerde input.mode input.domainIdent input.repIdent
    else TranspTokens.nothing
  { repEnum := repEnum
    conv := convPair.1
    domainToRep := convPair.2
    transp := transparentSerde }

/-- The parse / validate / emit pipeline as a whole. -/
def pipelineGenerate (r : ReceiverInput) : Except String GenOutput :=
  (validateInput (parseInput r)).map emitGenerate

/-- Embedding of `lib.rs::VersionedReceiver::generate_rep_enum` (textually
duplicated from `emit.rs` in the source, embedded separately so the two
implementations can be compared). -/
def libGenerateRepEnum (repName : String) (versionTypes : List String) :
    RepEnumTokens :=
  let numVersions := versionTypes.length
  { repName := repName
    variants := versionTypes.enum.map
      (fun p => (toString (p.1 + 1), "V" ++ toString (p.1 + 1), p.2))
    current := numVersions
    versionArms := (List.range numVersions).map
      (fun idx => ("V" ++ toString (idx + 1), idx + 1))
    latestVariant := "V" ++ toString numVersions
    fromImpls := versionTypes.enum.map
      (fun p => (p.2, "V" ++ toString (p.1 + 1))) }

/-- Embedding of `lib.rs::VersionedReceiver::build_infallible_chain`. -/
def libBuildInfallibleChain (domainType : String)
    (versionTypes : List String) (startIdx : Nat) : ChainExpr :=
  let expr := (versionTypes.drop (startIdx + 1)).foldl
    (fun e ty => ChainExpr.intoStep ty e) ChainExpr.vExpr
  ChainExpr.intoStep domainType expr

/-- Embedding of `lib.rs::VersionedReceiver::build_fallible_chain`. -/
def libBuildFallibleChain (domainType : String)
    (versionTypes : List String) (startIdx : Nat) : ChainExpr :=
  let expr := (versionTypes.drop (startIdx + 1)).foldl
    (fun e ty => ChainExpr.intoStep ty e) ChainExpr.vExpr
  ChainExpr.intoStep domainType expr

/-- Embedding of `lib.rs::VersionedReceiver::generate_conversions`. In
fallible mode the error type is read from the receiver field by
`self.error.as_ref().unwrap()`; the defaulting models that this point is
reached only after the presence check. -/
def libGenerateConversions (mode : LMode) (errorAttr : Option String)
    (domainType repName : String) (versionTypes : List String) :
    ConvImpl × DomainToRepTokens :=
  let numVersions := versionTypes.length
  let repToDomain :=
    match mode with
    | LMode.infallible =>
        ConvImpl.fromImpl repName domainType
          ((List.range numVersions).map
            (fun idx => ("V" ++ toString (idx + 1),
              libBuildInfallibleChain domainType versionTypes idx)))
    | LMode.fallible =>
        ConvImpl.tryFromImpl repName domainType (errorAttr.getD "")
          ((List.range numVersions).map
            (fun idx => ("V" ++ toString (idx + 1),
              libBuildFallibleChain domainType versionTypes idx)))
  (repToDomain,
    { latestType := versionTypes.getD (numVersions - 1) ""
      latestVariant := "V" ++ toString numVersions })

/-- Embedding of `lib.rs::VersionedReceiver::generate_transparent_serde`. -/
def libGenerateTransparentSerde (mode : LMode)
    (domainType repName : String) : TranspTokens :=
  match mode with
  | LMode.infallible => TranspTokens.infallibleImpls domainType repName
  | LMode.fallible => TranspTokens.fallibleImpls domainType repName

/-- The tail of `lib.rs::VersionedReceiver::generate` once the mode keyword
has been recognized: check the error attribute in fallible mode, then the
chain, then build the output. -/
def libGenerateWithMode (r : ReceiverInput) (mode : LMode) :
    Except String GenOutput :=
  if mode = LMode.fallible ∧ r.error = none then
    Except.error "fallible mode requires \x27error\x27 attribute"
  else if r.chain = [] then
    Except.error "chain must contain at least one version type"
  else
    let domainType := r.ident
    let repName := r.rep.getD (r.ident ++ "Versions")
    let repEnum := libGenerateRepEnum repName r.chain
    let convPair := libGenerateConversions mode r.error domainType repName
      r.chain
    let transparentSerde :=
      if r.transparent.getD false then
        libGenerateTransparentSerde mode domainType repName
      else TranspTokens.nothing
    Except.ok
      { repEnum := repEnum
        conv := convPair.1
        domainToRep := convPair.2
        transp := transparentSerde }

/-- Embedding of `lib.rs::VersionedReceiver::generate`: the mode keyword
(default "fallible") is checked first; an unrecognized keyword is rejected
before the error-attribute and chain checks run. -/
def libGenerate (r : ReceiverInput) : Except String GenOutput :=
  let m := r.mode.getD "fallible"
  if m = "infallible" then libGenerateWithMode r LMode.infallible
  else if m = "fallible" then libGenerateWithMode r LMode.fallible
  else
    Except.error
      ("invalid mode \x27" ++ m ++
        "\x27, expected \x27infallible\x27 or \x27fallible\x27")

/-- Modelled from the external serialization contract for internally tagged
enums: deserialization reads the tag field and selects the variant whose
declared rename equals the wire tag; when no declared variant matches,
decoding fails. The emitted enum declares no fallback or default variant, so
the dispatch is a total match over exactly the declared versions. -/
def tagDispatch (variants : List (String × String × String))
    (tag : String) : Option Nat :=
  variants.findIdx? (fun v => v.1 == tag)

/-! ## Helper lemmas -/

/-- Targets of a fold of conversion layers: the accumulated layers followed
by the folded type list, in order. -/
theorem chainTargets_foldl (l : List String) (e0 : ChainExpr) :
    chainTargets (l.foldl (fun e ty => ChainExpr.intoStep ty e) e0) =
      chainTargets e0 ++ l := by
  induction l generalizing e0 with
  | nil => simp
  | cons x xs ih =>
      simp only [List.foldl_cons, ih, chainTargets]
      simp

/-- The emitted infallible chain for start index `s` converts through the
chain types after position `s`, in ascending order, then the domain type. -/
theorem chainTargets_buildInfallibleChain (domainType : String)
    (versionTypes : List String) (startIdx : Nat) :
    chainTargets (buildInfallibleChain domainType versionTypes startIdx) =
      versionTypes.drop (startIdx + 1) ++ [domainType] := by
  simp [buildInfallibleChain, chainTargets, chainTargets_foldl]

/-- Same statement for the emitted fallible chain. -/
theorem chainTargets_buildFallibleChain (domainType : String)
    (versionTypes : List String) (startIdx : Nat) :
    chainTargets (buildFallibleChain domainType versionTypes startIdx) =
      versionTypes.drop (startIdx + 1) ++ [domainType] := by
  simp [buildFallibleChain, chainTargets, chainTargets_foldl]

/-- Evaluating an emitted infallible chain applies the conversions named by
its targets sequentially, in target order. -/
theorem evalInto_eq_applySteps {α : Type} (into : String → α → α)
    (c : ChainExpr) (v : α) :
    evalInto into c v = applySteps into (chainTargets c) v := by
  induction c with
  | vExpr => rfl
  | intoStep ty inner ih =>
      simp [evalInto, chainTargets, applySteps, List.foldl_append, ih]

/-- Evaluating an emitted fallible chain runs the conversions named by its
targets sequentially with fail-fast binding. -/
theorem evalTryInto_eq_runSteps {α ε : Type}
    (tryInto : String → α → Except ε α) (c : ChainExpr) (v : α) :
    evalTryInto tryInto c v = runSteps tryInto (chainTargets c) v := by
  induction c with
  | vExpr => rfl
  | intoStep ty inner ih =>
      simp [evalTryInto, chainTargets, runSteps, List.foldl_append, ih]

/-- An error accumulator is absorbing for the fail-fast fold: the remaining
steps never change it. -/
theorem foldl_bind_error {α ε : Type} (tryInto : String → α → Except ε α)
    (ts : List String) (e : ε) :
    ts.foldl (fun acc ty => acc.bind (tryInto ty)) (Except.error e) =
      Except.error e := by
  induction ts with
  | nil => rfl
  | cons x xs ih => simpa [Except.bind] using ih

/-- Splitting a sequential run after a successful prefix. -/
theorem runSteps_append_ok {α ε : Type} (tryInto : String → α → Except ε α)
    (l1 l2 : List String) (v w : α)
    (h : runSteps tryInto l1 v = Except.ok w) :
    runSteps tryInto (l1 ++ l2) v = runSteps tryInto l2 w := by
  simp only [runSteps, List.foldl_append]
  rw [show l1.foldl (fun acc ty => acc.bind (tryInto ty)) (Except.ok v) =
    Except.ok w from h]

/-- A failing head step makes the whole remaining run fail with its error. -/
theorem runSteps_cons_error {α ε : Type} (tryInto : String → α → Except ε α)
    (t : String) (post : List String) (w : α) (err : ε)
    (h : tryInto t w = Except.error err) :
    runSteps tryInto (t :: post) w = Except.error err := by
  simp only [runSteps, List.foldl_cons]
  rw [show (Except.ok w).bind (tryInto t) = Except.error err by
    simpa [Except.bind] using h]
  exact foldl_bind_error tryInto post err

/-- The fail-fast fold only consults the conversions named in the list. -/
theorem foldl_bind_congr {α ε : Type}
    (f g : String → α → Except ε α) (ts : List String)
    (h : ∀ t ∈ ts, g t = f t) (acc : Except ε α) :
    ts.foldl (fun a ty => a.bind (g ty)) acc =
      ts.foldl (fun a ty => a.bind (f ty)) acc := by
  induction ts generalizing acc with
  | nil => rfl
  | cons x xs ih =>
      simp only [List.foldl_cons]
      rw [h x (by simp)]
      exact ih (fun t ht => h t (by simp [ht])) _

/-- `runSteps` only consults the conversions named in the list. -/
theorem runSteps_congr {α ε : Type}
    (f g : String → α → Except ε α) (ts : List String)
    (h : ∀ t ∈ ts, g t = f t) (v : α) :
    runSteps g ts v = runSteps f ts v :=
  foldl_bind_congr f g ts h (Except.ok v)

/-! ## Claims -/

/-- C1: for every chain of length n at least 1 and every starting index i in
[1,n], the emitted conversion for the variant of version i applies the
supplied migration edges strictly sequentially and in ascending order,
through V(i+1), ..., Vn and then the domain edge, with no step skipped or
reordered (the target list is exactly the remaining chain followed by the
domain type, and evaluation is the sequential application over that list);
for i = n the emitted chain is exactly the single domain edge applied to the
payload, with no intermediate hop. -/
theorem C1_sequential_ascending_composition {α : Type}
    (domainType : String) (versionTypes : List String) (i : Nat)
    (h1 : 1 ≤ i) (h2 : i ≤ versionTypes.length)
    (into : String → α → α) (v : α) :
    chainTargets (buildInfallibleChain domainType versionTypes (i - 1)) =
        versionTypes.drop i ++ [domainType] ∧
      evalInto into (buildInfallibleChain domainType versionTypes (i - 1)) v =
        applySteps into (versionTypes.drop i ++ [domainType]) v ∧
      chainTargets (buildFallibleChain domainType versionTypes (i - 1)) =
        versionTypes.drop i ++ [domainType] ∧
      (i = versionTypes.length →
        buildInfallibleChain domainType versionTypes (i - 1) =
            ChainExpr.intoStep domainType ChainExpr.vExpr ∧
          buildFallibleChain domainType versionTypes (i - 1) =
            ChainExpr.intoStep domainType ChainExpr.vExpr) := by
  have hs : i - 1 + 1 = i := Nat.sub_add_cancel h1
  refine ⟨?_, ?_, ?_, ?_⟩
  · rw [chainTargets_buildInfallibleChain, hs]
  · rw [evalInto_eq_applySteps, chainTargets_buildInfallibleChain, hs]
  · rw [chainTargets_buildFallibleChain, hs]
  · intro hn
    subst hn
    constructor
    · simp [buildInfallibleChain, hs, List.drop_length]
    · simp [buildFallibleChain, hs, List.drop_length]

/-- Witness for C1: a concrete chain of length 3, starting indices 1 and 3;
the targets are the remaining versions in ascending order then the domain
type, and for i = n the chain is the bare domain edge. -/
theorem C1_sequential_ascending_composition_witness :
    chainTargets (buildInfallibleChain "User" ["V1", "V2", "V3"] 0) =
        ["V2", "V3", "User"] ∧
      buildInfallibleChain "User" ["V1", "V2", "V3"] 2 =
        ChainExpr.intoStep "User" ChainExpr.vExpr := by
  constructor
  · exact (C1_sequential_ascending_composition "User" ["V1", "V2", "V3"] 1
      (by decide) (by decide) (fun _ a => a) (0 : Nat)).1
  · exact ((C1_sequential_ascending_composition "User" ["V1", "V2", "V3"] 3
      (by decide) (by decide) (fun _ a => a) (0 : Nat)).2.2.2 (by decide)).1

/-- C2: in fallible mode, when the conversions before step k succeed and the
conversion at step k (an intermediate edge or the final domain edge) fails,
the emitted composed conversion returns exactly that error; no edge beyond
step k is invoked, witnessed by the run being unchanged under any
replacement of the conversions after step k. -/
theorem C2_first_error_short_circuits {α ε : Type}
    (domainType : String) (versionTypes : List String) (i : Nat)
    (h1 : 1 ≤ i) (_h2 : i ≤ versionTypes.length)
    (tryInto tryInto2 : String → α → Except ε α) (v w : α)
    (pre : List String) (tk : String) (post : List String) (err : ε)
    (hsplit : versionTypes.drop i ++ [domainType] = pre ++ tk :: post)
    (hpre : runSteps tryInto pre v = Except.ok w)
    (hk : tryInto tk w = Except.error err)
    (hagree : ∀ t ∈ pre, tryInto2 t = tryInto t)
    (hagreek : tryInto2 tk = tryInto tk) :
    evalTryInto tryInto
        (buildFallibleChain domainType versionTypes (i - 1)) v =
        Except.error err ∧
      evalTryInto tryInto2
        (buildFallibleChain domainType versionTypes (i - 1)) v =
        Except.error err := by
  have hs : i - 1 + 1 = i := Nat.sub_add_cancel h1
  have htg : chainTargets (buildFallibleChain domainType versionTypes
      (i - 1)) = pre ++ tk :: post := by
    rw [chainTargets_buildFallibleChain, hs, hsplit]
  constructor
  · rw [evalTryInto_eq_runSteps, htg, runSteps_append_ok tryInto pre
      (tk :: post) v w hpre, runSteps_cons_error tryInto tk post w err hk]
  · have hpre2 : runSteps tryInto2 pre v = Except.ok w := by
      rw [runSteps_congr tryInto tryInto2 pre hagree, hpre]
    have hk2 : tryInto2 tk w = Except.error err := by rw [hagreek, hk]
    rw [evalTryInto_eq_runSteps, htg, runSteps_append_ok tryInto2 pre
      (tk :: post) v w hpre2, runSteps_cons_error tryInto2 tk post w err hk2]

/-- Witness for C2: a concrete three-version chain in which the second edge
fails on a negative value; the composed conversion returns that error, and
replacing the conversion into the domain type (beyond the failing step) does
not change the result. -/
theorem C2_first_error_short_circuits_witness :
    evalTryInto
        (fun ty x => if ty = "V2" then Except.ok (x + 1)
          else if ty = "V3" then
            (if x < 0 then Except.error "neg" else Except.ok x)
          else Except.ok x)
        (buildFallibleChain "Product" ["V1", "V2", "V3"] 0) (-2 : Int) =
        Except.error "neg" ∧
      evalTryInto
        (fun ty x => if ty = "V2" then Except.ok (x + 1)
          else if ty = "V3" then
            (if x < 0 then Except.error "neg" else Except.ok x)
          else Except.error "other")
        (buildFallibleChain "Product" ["V1", "V2", "V3"] 0) (-2 : Int) =
        Except.error "neg" := by
  exact C2_first_error_short_circuits "Product" ["V1", "V2", "V3"] 1
    (by decide) (by decide) _ _ (-2) (-1) ["V2"] "V3" ["Product"] "neg"
    (by decide) (by decide) (by decide)
    (by intro t ht; rw [List.mem_singleton] at ht; subst ht; rfl) (by rfl)

/-- C5 counterexample: two runs of the same emitted fallible chain fail at
different steps (the first edge in one run, the second edge in the other)
yet return identical error values, because the emitted code propagates the
raw step error with no step index attached; hence no function of the
returned error can recover which step failed, contradicting the claim that
the returned error identifies the failing step. -/
theorem C5_counterexample :
    ¬ ∃ f : String → Nat,
      ∀ (tryInto : String → Int → Except String Int) (v : Int)
        (pre : List String) (tk : String) (post : List String)
        (w : Int) (err : String),
        chainTargets (buildFallibleChain "D" ["V1", "V2", "V3"] 0) =
            pre ++ tk :: post →
        runSteps tryInto pre v = Except.ok w →
        tryInto tk w = Except.error err →
        evalTryInto tryInto (buildFallibleChain "D" ["V1", "V2", "V3"] 0) v =
            Except.error err →
        f err = pre.length := by
  rintro ⟨f, hf⟩
  have h0 : f "E" = 0 :=
    hf (fun ty x => if ty = "V2" then Except.error "E" else Except.ok x)
      0 [] "V2" ["V3", "D"] 0 "E" (by decide) (by decide) (by decide)
      (by decide)
  have h1 : f "E" = 1 :=
    hf (fun ty x => if ty = "V3" then Except.error "E" else Except.ok x)
      0 ["V2"] "V3" ["D"] 0 "E" (by decide) (by decide) (by decide)
      (by decide)
  omega

/-- C5 amended: the composed fallible conversion fails with exactly the
error value produced by the first failing step, propagated unchanged and
treated as opaque; the emitted code attaches no step index or further
context, so the failing step is identifiable only insofar as the
caller-supplied error values themselves distinguish steps. -/
theorem C5_amended_opaque_propagation {α ε : Type}
    (domainType : String) (versionTypes : List String) (i : Nat)
    (h1 : 1 ≤ i)
    (tryInto : String → α → Except ε α) (v w : α)
    (pre : List String) (tk : String) (post : List String) (err : ε)
    (hsplit : versionTypes.drop i ++ [domainType] = pre ++ tk :: post)
    (hpre : runSteps tryInto pre v = Except.ok w)
    (hk : tryInto tk w = Except.error err) :
    evalTryInto tryInto
        (buildFallibleChain domainType versionTypes (i - 1)) v =
      Except.error err := by
  have hs : i - 1 + 1 = i := Nat.sub_add_cancel h1
  have htg : chainTargets (buildFallibleChain domainType versionTypes
      (i - 1)) = pre ++ tk :: post := by
    rw [chainTargets_buildFallibleChain, hs, hsplit]
  rw [evalTryInto_eq_runSteps, htg, runSteps_append_ok tryInto pre
    (tk :: post) v w hpre, runSteps_cons_error tryInto tk post w err hk]

/-- Witness for the amended C5: a two-version chain whose domain edge fails;
the composed conversion returns exactly the error the domain edge produced. -/
theorem C5_amended_opaque_propagation_witness :
    evalTryInto
        (fun ty x => if ty = "B" then Except.ok (x * 2)
          else if ty = "D" then Except.error "boom" else Except.ok x)
        (buildFallibleChain "D" ["A", "B"] 0) (3 : Int) =
      Except.error "boom" := by
  exact C5_amended_opaque_propagation "D" ["A", "B"] 1 (by decide) _
    3 6 ["B"] "D" [] "boom" (by decide) (by decide) (by decide)

/-- C3: for every domain value, regardless of content, the emitted
domain-to-envelope conversion produces the variant at index n: its version
equals n, equals the CURRENT constant, and `is_current` holds; no historical
variant 1..n-1 is ever produced on the output path. -/
theorem C3_fromDomain_latest {α δ : Type} (proj : δ → α) (n : Nat)
    (hn : 0 < n) (d : δ) :
    RepE.version (fromDomain proj n hn d) = n ∧
      RepE.version (fromDomain proj n hn d) = repCurrent n ∧
      RepE.is_current (fromDomain proj n hn d) = true := by
  refine ⟨?_, ?_, ?_⟩
  · simp only [RepE.version, fromDomain]
    omega
  · simp only [RepE.version, fromDomain, repCurrent]
    omega
  · simp [RepE.is_current, fromDomain]

/-- Witness for C3 at a chain of length 2 over a numeric carrier. -/
theorem C3_fromDomain_latest_witness :
    RepE.version (fromDomain (fun d : Nat => d) 2 (by decide) 7) = 2 ∧
      RepE.is_current (fromDomain (fun d : Nat => d) 2 (by decide) 7) =
        true := by
  have h := C3_fromDomain_latest (fun d : Nat => d) 2 (by decide) 7
  exact ⟨h.1, h.2.2⟩

/-- C4: the round trip from the domain through the envelope and back passes
only through the latest version shape: in both modes it equals the domain
projection followed by the single domain edge; whenever the user-supplied
pair is inverse (as it is in the embedded infallible example, settled in the
first conjunct for every domain value) the round trip is the identity, and
in fallible mode it returns Ok of the original value. -/
theorem C4_roundtrip :
    (∀ u : ExUser, ExUserVersions.toUser (ExUser.toRep u) = u) ∧
      (∀ (α δ : Type) (edge : Nat → α → α) (domEdge : α → δ)
        (proj : δ → α) (n : Nat) (hn : 0 < n) (d : δ),
        toDomain edge domEdge n (fromDomain proj n hn d) =
          domEdge (proj d)) ∧
      (∀ (α δ : Type) (edge : Nat → α → α) (domEdge : α → δ)
        (proj : δ → α) (n : Nat) (hn : 0 < n) (d : δ),
        (∀ x, domEdge (proj x) = x) →
        toDomain edge domEdge n (fromDomain proj n hn d) = d) ∧
      (∀ (α δ ε : Type) (tryEdge : Nat → α → Except ε α)
        (tryDomEdge : α → Except ε δ) (proj : δ → α) (n : Nat)
        (hn : 0 < n) (d : δ),
        tryToDomain tryEdge tryDomEdge n (fromDomain proj n hn d) =
          tryDomEdge (proj d)) ∧
      (∀ (α δ ε : Type) (tryEdge : Nat → α → Except ε α)
        (tryDomEdge : α → Except ε δ) (proj : δ → α) (n : Nat)
        (hn : 0 < n) (d : δ),
        (∀ x, tryDomEdge (proj x) = Except.ok x) →
        tryToDomain tryEdge tryDomEdge n (fromDomain proj n hn d) =
          Except.ok d) := by
  refine ⟨?_, ?_, ?_, ?_, ?_⟩
  · intro u
    cases u
    rfl
  · intro α δ edge domEdge proj n hn d
    simp [toDomain, fromDomain, Nat.sub_self]
  · intro α δ edge domEdge proj n hn d hinv
    simp [toDomain, fromDomain, Nat.sub_self, hinv]
  · intro α δ ε tryEdge tryDomEdge proj n hn d
    simp [tryToDomain, fromDomain, Nat.sub_self, Except.bind]
  · intro α δ ε tryEdge tryDomEdge proj n hn d hinv
    simp [tryToDomain, fromDomain, Nat.sub_self, Except.bind, hinv]

/-- Witness for C4: the concrete example round trip and the generic parts at
a chain of length 2 over a numeric carrier with an inverse pair. -/
theorem C4_roundtrip_witness :
    ExUserVersions.toUser
        (ExUser.toRep { full_name := "Ada", email := some "ada@example.com" })
        = { full_name := "Ada", email := some "ada@example.com" } ∧
      toDomain (fun _ a => a + 1) (fun a : Nat => a) 2
        (fromDomain (fun d : Nat => d) 2 (by decide) 7) = 7 ∧
      tryToDomain (fun _ a => Except.ok (a + 1))
        (fun a : Nat => (Except.ok a : Except String Nat))
        2 (fromDomain (fun d : Nat => d) 2 (by decide) 7) =
        Except.ok 7 := by
  refine ⟨C4_roundtrip.1 _, ?_, ?_⟩
  · exact C4_roundtrip.2.2.1 Nat Nat (fun _ a => a + 1) (fun a => a)
      (fun d => d) 2 (by decide) 7 (fun _ => rfl)
  · exact C4_roundtrip.2.2.2.2 Nat Nat String (fun _ a => Except.ok (a + 1))
      (fun a => Except.ok a) (fun d => d) 2 (by decide) 7 (fun _ => rfl)

/-- C8: in the embedded total-mode scenario of chain length 2, decoding the
wire object tagged "1" with name Alice and converting to the domain yields
full name Alice with no email, and decoding the wire object tagged "2" with
full name Bob and an email yields that full name and email. -/
theorem C8_scenario :
    decodeExUser (Json.obj [("_version", Json.str "1"),
        ("name", Json.str "Alice")]) =
        some { full_name := "Alice", email := none } ∧
      decodeExUser (Json.obj [("_version", Json.str "2"),
        ("full_name", Json.str "Bob"),
        ("email", Json.str "bob@example.com")]) =
        some { full_name := "Bob", email := some "bob@example.com" } := by
  exact ⟨rfl, rfl⟩

/-- C9: the emitted version method returns the 1-based position of the
active variant, always in [1, n]; it is a pure total function by
construction, and `is_current` holds exactly when the version equals the
chain length n, which is the value of the CURRENT constant. -/
theorem C9_version_and_is_current {n : Nat} {α : Type} (e : RepE n α) :
    1 ≤ RepE.version e ∧ RepE.version e ≤ n ∧
      (RepE.is_current e = true ↔ RepE.version e = repCurrent n) := by
  have hlt := e.idx.isLt
  refine ⟨by simp [RepE.version], by simp only [RepE.version]; omega, ?_⟩
  simp only [RepE.is_current, RepE.version, repCurrent, beq_iff_eq]
  omega

/-- C7: the emitted enum declares exactly one variant per version, the
variant for position i carrying serde rename the decimal string of i, with
no fallback variant; by the external-layer dispatch contract, a wire tag
outside the declared set makes decoding fail (an error value, not a panic,
the dispatch function being total, and never a silently chosen default
variant), and a successful dispatch always selects the declared variant
whose rename equals the tag. -/
theorem C7_unknown_tag_rejected (repName tag : String)
    (versionTypes : List String) :
    ((∀ i < versionTypes.length, tag ≠ toString (i + 1)) →
      tagDispatch (emitGenerateRepEnum repName versionTypes).variants tag =
        none) ∧
      (∀ k, tagDispatch (emitGenerateRepEnum repName versionTypes).variants
          tag = some k →
        k < versionTypes.length ∧ toString (k + 1) = tag) := by
  constructor
  · intro hout
    rw [tagDispatch, List.findIdx?_eq_none_iff]
    intro x hx
    simp only [emitGenerateRepEnum, List.mem_map] at hx
    obtain ⟨p, hp, rfl⟩ := hx
    have hplt : p.1 < versionTypes.length := by
      rw [List.mem_enum_iff_getElem?] at hp
      exact (List.getElem?_eq_some.mp hp).1
    simp only [beq_eq_false_iff_ne]
    exact fun h => hout p.1 hplt h.symm
  · intro k hk
    rw [tagDispatch, List.findIdx?_eq_some_iff_findIdx_eq] at hk
    obtain ⟨hklt, hfind⟩ := hk
    have hlen : (emitGenerateRepEnum repName versionTypes).variants.length =
        versionTypes.length := by
      simp [emitGenerateRepEnum, List.enum_length]
    rw [hlen] at hklt
    refine ⟨hklt, ?_⟩
    have hpred := @List.findIdx_getElem _ (fun v => v.1 == tag)
      (emitGenerateRepEnum repName versionTypes).variants
      (by rw [hfind, hlen]; exact hklt)
    simp only [hfind] at hpred
    simp only [emitGenerateRepEnum, List.getElem_map, List.getElem_enum,
      beq_iff_eq] at hpred
    exact hpred

/-- Witness for C7 with two declared versions: the out-of-range tag "3" is
rejected, and dispatch of the declared tag "2" selects variant index 1 with
matching rename. -/
theorem C7_unknown_tag_rejected_witness :
    tagDispatch (emitGenerateRepEnum "R" ["A", "B"]).variants "3" = none ∧
      (1 < 2 ∧ toString (1 + 1) = "2") := by
  constructor
  · exact (C7_unknown_tag_rejected "R" "3" ["A", "B"]).1 (by decide)
  · exact (C7_unknown_tag_rejected "R" "2" ["A", "B"]).2 1 (by decide)

/-- The inline generator rejects an unrecognized mode keyword regardless of
the rest of the configuration (the mode check runs first). -/
theorem libGenerate_invalid_mode (r : ReceiverInput) (m : String)
    (hm : r.mode = some m) (h1 : m ≠ "infallible") (h2 : m ≠ "fallible") :
    libGenerate r =
      Except.error ("invalid mode \x27" ++ m ++
        "\x27, expected \x27infallible\x27 or \x27fallible\x27") := by
  simp [libGenerate, hm, h1, h2]

/-- The inline generator rejects fallible mode (explicit or defaulted)
without an error attribute, regardless of the chain. -/
theorem libGenerate_fallible_missing_error (r : ReceiverInput)
    (hm : r.mode = none ∨ r.mode = some "fallible") (he : r.error = none) :
    libGenerate r =
      Except.error "fallible mode requires \x27error\x27 attribute" := by
  rcases hm with hm | hm <;>
    simp [libGenerate, libGenerateWithMode, hm, he]

/-- The pipeline rejects an empty chain before any other check. -/
theorem pipeline_empty_chain (r : ReceiverInput) (h : r.chain = []) :
    pipelineGenerate r =
      Except.error "chain must contain at least one version type" := by
  simp [pipelineGenerate, validateInput, parseInput, h, Except.map]

/-- On an empty chain the inline generator always rejects, whatever the
other fields hold. -/
theorem libGenerate_empty_chain_isOk (r : ReceiverInput) (h : r.chain = []) :
    (libGenerate r).isOk = false := by
  by_cases hm1 : r.mode.getD "fallible" = "infallible"
  · simp [libGenerate, libGenerateWithMode, hm1, h, Except.isOk, Except.toBool]
  · by_cases hm2 : r.mode.getD "fallible" = "fallible"
    · by_cases he : r.error = none <;>
        simp [libGenerate, libGenerateWithMode, hm1, hm2, h, he, Except.isOk, Except.toBool]
    · simp [libGenerate, hm1, hm2, Except.isOk, Except.toBool]

/-- With a nonempty chain the pipeline rejects an unrecognized mode keyword
with the same diagnostic as the inline generator. -/
theorem pipeline_invalid_mode (r : ReceiverInput) (m : String)
    (h : r.chain ≠ []) (hm : r.mode = some m)
    (h1 : m ≠ "infallible") (h2 : m ≠ "fallible") :
    pipelineGenerate r =
      Except.error ("invalid mode \x27" ++ m ++
        "\x27, expected \x27infallible\x27 or \x27fallible\x27") := by
  simp [pipelineGenerate, validateInput, parseInput, h, hm, h1, h2,
    Except.map]

/-- With a nonempty chain the pipeline rejects fallible mode (explicit or
defaulted) without an error attribute. -/
theorem pipeline_fallible_missing_error (r : ReceiverInput)
    (h : r.chain ≠ []) (hm : r.mode = none ∨ r.mode = some "fallible")
    (he : r.error = none) :
    pipelineGenerate r =
      Except.error "fallible mode requires \x27error\x27 attribute" := by
  rcases hm with hm | hm <;>
    simp [pipelineGenerate, validateInput, parseInput, h, hm, he, Except.map]

/-- On any configuration with a nonempty chain the two implementations agree
exactly, diagnostics included. -/
theorem libGenerate_eq_pipeline_nonempty (r : ReceiverInput)
    (h : r.chain ≠ []) : libGenerate r = pipelineGenerate r := by
  by_cases hm1 : r.mode.getD "fallible" = "infallible"
  · simp only [libGenerate, libGenerateWithMode, pipelineGenerate,
      validateInput, parseInput, hm1, if_true, if_neg h]
    simp [h, Except.map]
    rfl
  · by_cases hm2 : r.mode.getD "fallible" = "fallible"
    · by_cases he : r.error = none
      · rw [libGenerate_fallible_missing_error r ?_ he,
          pipeline_fallible_missing_error r h ?_ he]
        · cases hmo : r.mode with
          | none => exact Or.inl rfl
          | some m =>
              right
              rw [hmo] at hm2
              simp only [Option.getD] at hm2
              rw [hm2]
        · cases hmo : r.mode with
          | none => exact Or.inl rfl
          | some m =>
              right
              rw [hmo] at hm2
              simp only [Option.getD] at hm2
              rw [hm2]
      · obtain ⟨err, herr⟩ := Option.ne_none_iff_exists'.mp he
        simp only [libGenerate, libGenerateWithMode, pipelineGenerate,
          validateInput, parseInput, hm1, hm2, if_false, if_true, herr]
        simp [h, Except.map]
        rfl
    · cases hmo : r.mode with
      | none =>
          rw [hmo] at hm2
          simp at hm2
      | some m =>
          have hm : r.mode.getD "fallible" = m := by rw [hmo]; rfl
          rw [hm] at hm1 hm2
          rw [libGenerate_invalid_mode r m hmo hm1 hm2,
            pipeline_invalid_mode r m h hmo hm1 hm2]

/-- With an empty chain but otherwise valid mode and error configuration,
both implementations report the empty-chain diagnostic. -/
theorem libGenerate_eq_pipeline_empty_ok_mode (r : ReceiverInput)
    (h : r.chain = [])
    (hok : r.mode.getD "fallible" = "infallible" ∨
      (r.mode.getD "fallible" = "fallible" ∧ r.error ≠ none)) :
    libGenerate r = pipelineGenerate r := by
  rw [pipeline_empty_chain r h]
  rcases hok with hm | ⟨hm, he⟩
  · simp [libGenerate, libGenerateWithMode, hm, h]
  · obtain ⟨err, herr⟩ := Option.ne_none_iff_exists'.mp he
    simp [libGenerate, libGenerateWithMode, hm, h, herr]

/-- Acceptance parity: the two implementations accept exactly the same
configurations. -/
theorem libGenerate_isOk_eq_pipeline (r : ReceiverInput) :
    (libGenerate r).isOk = (pipelineGenerate r).isOk := by
  by_cases h : r.chain = []
  · rw [libGenerate_empty_chain_isOk r h, pipeline_empty_chain r h]
    rfl
  · rw [libGenerate_eq_pipeline_nonempty r h]

/-- C6: definition-time validation, checked in both parallel
implementations: an empty version chain, fallible mode (explicit or
defaulted) without a supplied error type, and an unrecognized mode keyword
are each rejected with a descriptive error, and the rejecting result is an
error value carrying no generated output; infallible mode is accepted
without an error type, and its generated output is independent of the error
field. The checks are functions of the static configuration alone, run once
when the macro expands the definition; the emitted conversion code contains
no validation. -/
theorem C6_definition_time_validation (p : ReceiverInput) :
    (p.chain = [] →
      pipelineGenerate p =
        Except.error "chain must contain at least one version type") ∧
      (p.chain = [] → (libGenerate p).isOk = false) ∧
      ((p.mode = none ∨ p.mode = some "fallible") → p.error = none →
        libGenerate p =
            Except.error "fallible mode requires \x27error\x27 attribute" ∧
          (p.chain ≠ [] →
            pipelineGenerate p =
              Except.error "fallible mode requires \x27error\x27 attribute")) ∧
      (∀ m, p.mode = some m → m ≠ "infallible" → m ≠ "fallible" →
        libGenerate p =
            Except.error ("invalid mode \x27" ++ m ++
              "\x27, expected \x27infallible\x27 or \x27fallible\x27") ∧
          (p.chain ≠ [] →
            pipelineGenerate p =
              Except.error ("invalid mode \x27" ++ m ++
                "\x27, expected \x27infallible\x27 or \x27fallible\x27"))) ∧
      (p.mode = some "infallible" → p.chain ≠ [] →
        (pipelineGenerate p).isOk = true ∧ (libGenerate p).isOk = true) ∧
      (p.mode = some "infallible" → ∀ e1 e2 : Option String,
        pipelineGenerate { p with error := e1 } =
            pipelineGenerate { p with error := e2 } ∧
          libGenerate { p with error := e1 } =
            libGenerate { p with error := e2 }) := by
  refine ⟨fun h => pipeline_empty_chain p h,
    fun h => libGenerate_empty_chain_isOk p h, ?_, ?_, ?_, ?_⟩
  · intro hm he
    exact ⟨libGenerate_fallible_missing_error p hm he,
      fun hc => pipeline_fallible_missing_error p hc hm he⟩
  · intro m hm h1 h2
    exact ⟨libGenerate_invalid_mode p m hm h1 h2,
      fun hc => pipeline_invalid_mode p m hc hm h1 h2⟩
  · intro hm hc
    constructor
    · simp [pipelineGenerate, validateInput, parseInput, hc, hm,
        Except.map, Except.isOk, Except.toBool]
    · simp [libGenerate, libGenerateWithMode, hm, hc, Except.isOk,
        Except.toBool]
  · intro hm e1 e2
    constructor
    · by_cases hc : p.chain = []
      · rw [pipeline_empty_chain _ (by simpa using hc),
          pipeline_empty_chain _ (by simpa using hc)]
      · simp [pipelineGenerate, validateInput, parseInput, hm, hc,
          Except.map]
    · by_cases hc : p.chain = []
      · simp [libGenerate, libGenerateWithMode, hm, hc]
      · simp [libGenerate, libGenerateWithMode, libGenerateConversions,
          hm, hc]

/-- Witness for C6 on concrete configurations: an empty chain is rejected by
both implementations; default-fallible mode without an error type is
rejected with the descriptive diagnostic; an unrecognized keyword is
rejected with the descriptive diagnostic; infallible mode with no error
type is accepted; and the infallible output ignores the error field. -/
theorem C6_definition_time_validation_witness :
    pipelineGenerate
        { ident := "Example"
          rep := none
          mode := some "infallible"
          error := none
          transparent := none
          chain := [] } =
        Except.error "chain must contain at least one version type" ∧
      (libGenerate
        { ident := "Example"
          rep := none
          mode := some "infallible"
          error := none
          transparent := none
          chain := [] }).isOk = false ∧
      libGenerate
        { ident := "Example"
          rep := none
          mode := none
          error := none
          transparent := none
          chain := ["V1"] } =
        Except.error "fallible mode requires \x27error\x27 attribute" ∧
      libGenerate
        { ident := "Example"
          rep := none
          mode := some "weird"
          error := none
          transparent := none
          chain := ["V1"] } =
        Except.error
          "invalid mode \x27weird\x27, expected \x27infallible\x27 or \x27fallible\x27" ∧
      (pipelineGenerate
        { ident := "Example"
          rep := none
          mode := some "infallible"
          error := none
          transparent := none
          chain := ["V1"] }).isOk = true ∧
      libGenerate
          { ident := "Example"
            rep := none
            mode := some "infallible"
            error := some "E"
            transparent := none
            chain := ["V1"] } =
        libGenerate
          { ident := "Example"
            rep := none
            mode := some "infallible"
            error := none
            transparent := none
            chain := ["V1"] } := by
  refine ⟨?_, ?_, ?_, ?_, ?_, ?_⟩
  · exact (C6_definition_time_validation
      { ident := "Example", rep := none, mode := some "infallible",
        error := none, transparent := none, chain := [] }).1 rfl
  · exact (C6_definition_time_validation
      { ident := "Example", rep := none, mode := some "infallible",
        error := none, transparent := none, chain := [] }).2.1 rfl
  · exact ((C6_definition_time_validation
      { ident := "Example", rep := none, mode := none,
        error := none, transparent := none, chain := ["V1"] }).2.2.1
      (Or.inl rfl) rfl).1
  · exact ((C6_definition_time_validation
      { ident := "Example", rep := none, mode := some "weird",
        error := none, transparent := none, chain := ["V1"] }).2.2.2.1
      "weird" rfl (by decide) (by decide)).1
  · exact ((C6_definition_time_validation
      { ident := "Example", rep := none, mode := some "infallible",
        error := none, transparent := none, chain := ["V1"] }).2.2.2.2.1
      rfl (by decide)).1
  · exact ((C6_definition_time_validation
      { ident := "Example", rep := none, mode := some "infallible",
        error := none, transparent := none, chain := ["V1"] }).2.2.2.2.2
      rfl (some "E") none).2

/-- C10 (amended): the two parallel implementations accept exactly the same
configurations and, whenever the chain is nonempty, agree exactly: same
acceptance, identical generated token streams, identical diagnostics; they
also agree on empty-chain inputs whose mode and error configuration is
otherwise valid. The claim fails only in its multi-violation diagnostic
part: the inline generator checks the mode keyword and error attribute
before the chain while the pipeline checks the chain first, so an input
violating the chain rule together with a mode or error rule draws different
diagnostics from the two implementations. -/
theorem C10_generators_agree (r : ReceiverInput) :
    (r.chain ≠ [] → libGenerate r = pipelineGenerate r) ∧
      (libGenerate r).isOk = (pipelineGenerate r).isOk ∧
      (r.chain = [] →
        (r.mode.getD "fallible" = "infallible" ∨
          (r.mode.getD "fallible" = "fallible" ∧ r.error ≠ none)) →
        libGenerate r = pipelineGenerate r) := by
  exact ⟨fun h => libGenerate_eq_pipeline_nonempty r h,
    libGenerate_isOk_eq_pipeline r,
    fun h hok => libGenerate_eq_pipeline_empty_ok_mode r h hok⟩

/-- Witness for C10: on a concrete accepted fallible configuration the two
implementations produce identical output; on a concrete empty-chain but
otherwise valid configuration they produce the identical diagnostic; and
acceptance parity holds at the multi-violation input. -/
theorem C10_generators_agree_witness :
    libGenerate
        { ident := "Profile"
          rep := none
          mode := some "fallible"
          error := some "anyhow::Error"
          transparent := some true
          chain := ["ProfileV1", "ProfileV2", "ProfileV3"] } =
      pipelineGenerate
        { ident := "Profile"
          rep := none
          mode := some "fallible"
          error := some "anyhow::Error"
          transparent := some true
          chain := ["ProfileV1", "ProfileV2", "ProfileV3"] } ∧
      libGenerate
          { ident := "Example"
            rep := none
            mode := some "infallible"
            error := none
            transparent := none
            chain := [] } =
        pipelineGenerate
          { ident := "Example"
            rep := none
            mode := some "infallible"
            error := none
            transparent := none
            chain := [] } ∧
      (libGenerate
          { ident := "Example"
            rep := none
            mode := some "bogus"
            error := none
            transparent := none
            chain := [] }).isOk =
        (pipelineGenerate
          { ident := "Example"
            rep := none
            mode := some "bogus"
            error := none
            transparent := none
            chain := [] }).isOk := by
  refine ⟨?_, ?_, ?_⟩
  · exact (C10_generators_agree
      { ident := "Profile", rep := none, mode := some "fallible",
        error := some "anyhow::Error", transparent := some true,
        chain := ["ProfileV1", "ProfileV2", "ProfileV3"] }).1 (by decide)
  · exact (C10_generators_agree
      { ident := "Example", rep := none, mode := some "infallible",
        error := none, transparent := none, chain := [] }).2.2 rfl
      (Or.inl rfl)
  · exact (C10_generators_agree
      { ident := "Example", rep := none, mode := some "bogus",
        error := none, transparent := none, chain := [] }).2.1

/-- C10 counterexample: on a configuration violating two rules at once (an
empty chain together with an invalid mode keyword) the two implementations
report different diagnostics, so they are not equivalent as the claim
states: the inline generator reports the invalid mode, the pipeline reports
the empty chain. -/
theorem C10_counterexample :
    libGenerate
        { ident := "Example"
          rep := none
          mode := some "bogus"
          error := none
          transparent := none
          chain := [] } =
        Except.error
          "invalid mode \x27bogus\x27, expected \x27infallible\x27 or \x27fallible\x27" ∧
      pipelineGenerate
        { ident := "Example"
          rep := none
          mode := some "bogus"
          error := none
          transparent := none
          chain := [] } =
        Except.error "chain must contain at least one version type" ∧
      libGenerate
          { ident := "Example"
            rep := none
            mode := some "bogus"
            error := none
            transparent := none
            chain := [] } ≠
        pipelineGenerate
          { ident := "Example"
            rep := none
            mode := some "bogus"
            error := none
            transparent := none
            chain := [] } := by
  refine ⟨by decide, by decide, by decide⟩
